import Mathlib

/-!
Verification of the session-gated view pattern of this repository.

Two source components share the pattern:
- `Dashboard` (src/apps/web/src/app/dashboard/page.tsx): the SessionGate —
  redirects unauthenticated viewers, shows a loader while pending, and
  renders the protected content when a session is present.
- `Header` (src/unnamed/part_000): the ConditionalNavigation — shows a
  loader while pending, otherwise a link list whose gated part appears
  only when a session is present.  It ALSO contains the same redirect
  `useEffect` as the Dashboard (part_000 lines 16-20).

The session provider hands both components the tuple
`(session: User | null, isPending: bool)`; all behavior is a function of
the latest tuple plus React's `useEffect` dependency comparison, which we
model explicitly as a step function over observed tuples.
-/

/-- A user as this core sees it: the protected content shows
`session.user.name`, so the only field the embedding needs is the name. -/
structure User where
  name : String
deriving DecidableEq

/-- The tuple returned by `authClient.useSession()`:
`{ data: session, isPending }`. -/
structure SessionTuple where
  session : Option User
  isPending : Bool
deriving DecidableEq

/-- The dependency array `[session, isPending, router]` of the redirect
effect (the router is a stable reference, so only the first two matter
for change detection). For `session = null` JavaScript's `Object.is`
agrees with structural equality, which is the only case in which the
effect body acts, so structural comparison is faithful here. -/
def depsOf (t : SessionTuple) : Option User × Bool :=
  (t.session, t.isPending)

/-- The guard of the redirect effect body:
`if (!session && !isPending) { router.push("/login") }`. -/
def shouldRedirect (t : SessionTuple) : Bool :=
  t.session.isNone && !t.isPending

/-- State of the effect machine: the dependency values of the last render
whose effect ran (none before the first render), and the list of
`router.push` arguments issued so far, in order. -/
structure EffectState where
  prevDeps : Option (Option User × Bool)
  pushes : List String
deriving DecidableEq

/-- Effect machine before the first render: no deps seen, nothing pushed. -/
def initEffectState : EffectState :=
  { prevDeps := none, pushes := [] }

/--
One observed render of the `useEffect` at lines 16-20 of
src/apps/web/src/app/dashboard/page.tsx, identical text at lines 16-20 of
src/unnamed/part_000:

```
useEffect(() => {
  if (!session && !isPending) {
    router.push("/login");
  }
}, [session, isPending, router]);
```

React re-runs the effect exactly when the dependency array changed since
the last committed render (and on the first render); otherwise the effect
is skipped and no push can occur.
-/
def redirectEffectStep (s : EffectState) (t : SessionTuple) : EffectState :=
  if s.prevDeps = some (depsOf t) then s
  else
    { prevDeps := some (depsOf t)
      pushes := if shouldRedirect t then s.pushes ++ ["/login"] else s.pushes }

/-- The Dashboard mounted and fed a sequence of session tuples, one per
render: the accumulated effect state. -/
def runDashboardEffects (obs : List SessionTuple) : EffectState :=
  obs.foldl redirectEffectStep initEffectState

/-- The Header mounted and fed a sequence of session tuples, one per
render: the accumulated effect state (the Header's `useEffect` is
textually identical to the Dashboard's, src/unnamed/part_000 lines
16-20). -/
def runHeaderEffects (obs : List SessionTuple) : EffectState :=
  obs.foldl redirectEffectStep initEffectState

/-- What one render of the Dashboard puts on screen. -/
inductive DashboardRender where
  /-- `<Loader />` (page.tsx line 24). -/
  | loader : DashboardRender
  /-- `return null` (page.tsx line 29). -/
  | empty : DashboardRender
  /-- The protected block (page.tsx lines 32-38): shows
  `session.user.name` and `privateData.data?.message`. -/
  | content (userName : String) (privateMsg : Option String) : DashboardRender
deriving DecidableEq

/-- One render frame of the Dashboard: whether the `privateData` query
was issued this render, and the rendered output. -/
structure DashboardFrame where
  queryIssued : Bool
  output : DashboardRender
deriving DecidableEq

/--
The render body of `Dashboard` (src/apps/web/src/app/dashboard/page.tsx
lines 10-39).  Line 14 — `useQuery(orpc.privateData.queryOptions())` —
executes unconditionally before any of the early returns, so the query is
issued on every render; then:
line 23 `if (isPending) return <Loader />`,
line 28 `if (!session) return null`,
lines 32-38 the protected content.
`privateMsg` stands for `privateData.data?.message` as supplied by the
query collaborator.
-/
def dashboardFrame (t : SessionTuple) (privateMsg : Option String) : DashboardFrame :=
  let issued := true
  if t.isPending then
    { queryIssued := issued, output := DashboardRender.loader }
  else
    match t.session with
    | none => { queryIssued := issued, output := DashboardRender.empty }
    | some u => { queryIssued := issued, output := DashboardRender.content u.name privateMsg }

/-- The visible output of one Dashboard render. -/
def dashboardRender (t : SessionTuple) (privateMsg : Option String) : DashboardRender :=
  (dashboardFrame t privateMsg).output

/-- A navigation link `{ to, label }` as in the `links` array of
src/unnamed/part_000 (the `to` field is named `target` here because `to`
is a reserved word in Lean). -/
structure NavLink where
  target : String
  label : String
deriving DecidableEq

/--
The `links` array of `Header` (src/unnamed/part_000 lines 27-34):

```
const links = [
  { to: "/", label: "Home" },
  ...(session ? [
    { to: "/dashboard", label: "Dashboard" },
    { to: "/todos", label: "Todos" },
  ] : []),
];
```
-/
def headerLinks (session : Option User) : List NavLink :=
  { target := "/", label := "Home" } ::
    (match session with
     | some _ => [{ target := "/dashboard", label := "Dashboard" },
                  { target := "/todos", label := "Todos" }]
     | none => [])

/-- What one render of the Header puts on screen. -/
inductive HeaderRender where
  /-- `<Loader />` (part_000 line 24). -/
  | loader : HeaderRender
  /-- The `<nav>` element mapping over `links` in array order
  (part_000 lines 40-46). -/
  | nav (links : List NavLink) : HeaderRender
deriving DecidableEq

/-- The render body of `Header` (src/unnamed/part_000 lines 12-56):
line 23 `if (isPending) return <Loader />`, otherwise the nav built from
the `links` array in declaration order. -/
def headerRender (t : SessionTuple) : HeaderRender :=
  if t.isPending then HeaderRender.loader
  else HeaderRender.nav (headerLinks t.session)

/-! Spec-side vocabulary: the three-state SessionState of the spec and the
link sets it names, used to compare the code against the spec's words. -/

/-- The spec's tagged union over session states. -/
inductive SessionState where
  | pending : SessionState
  | unauthenticated : SessionState
  | authenticated (u : User) : SessionState
deriving DecidableEq

/-- Map the provider tuple to the spec's SessionState: `isPending` true is
`Pending`; resolved without a session is `Unauthenticated`; resolved with
one is `Authenticated(user)`. -/
def classify (t : SessionTuple) : SessionState :=
  if t.isPending then SessionState.pending
  else
    match t.session with
    | none => SessionState.unauthenticated
    | some u => SessionState.authenticated u

/-- The spec's base link set: always visible. -/
def baseLinks : List NavLink :=
  [{ target := "/", label := "Home" }]

/-- The spec's gated link set: visible only when authenticated. -/
def gatedLinks : List NavLink :=
  [{ target := "/dashboard", label := "Dashboard" },
   { target := "/todos", label := "Todos" }]

/-- Modelled from the spec (ConditionalNavigation output clause): the
visible sequence is `baseLinks` followed by `gatedLinks` iff the state is
`Authenticated`, else `baseLinks` alone. -/
def specVisibleLinks : SessionState → List NavLink
  | SessionState.authenticated _ => baseLinks ++ gatedLinks
  | _ => baseLinks

/-- Count, along a sequence of observed tuples, the logical transitions
into `Unauthenticated`: observations whose dependency values differ from
the previous observation's and whose tuple is session-absent and not
pending. The first argument is the dependency value of the observation
before the sequence (none at mount). -/
def transitionsToUnauth : Option (Option User × Bool) → List SessionTuple → Nat
  | _, [] => 0
  | prev, t :: rest =>
      (if prev = some (depsOf t) then 0 else if shouldRedirect t then 1 else 0)
        + transitionsToUnauth (some (depsOf t)) rest

/-- Sample tuples used by the concrete test cases of the claims. -/
def pendingT : SessionTuple := { session := none, isPending := true }

/-- The resolved, session-absent tuple. -/
def unauthT : SessionTuple := { session := none, isPending := false }

/-- A resolved tuple carrying user `u`. -/
def authT (u : User) : SessionTuple := { session := some u, isPending := false }

/-- A concrete user for witnesses and counterexamples. -/
def demoUser : User := { name := "Alice" }

/-! ### Helper lemmas -/

/-- The pushes accumulated by the effect machine over a trace are exactly
one `"/login"` per transition into `Unauthenticated`, appended to whatever
was already pushed. -/
theorem foldl_redirect_pushes (obs : List SessionTuple) :
    ∀ s : EffectState,
      (List.foldl redirectEffectStep s obs).pushes
        = s.pushes ++ List.replicate (transitionsToUnauth s.prevDeps obs) "/login" := by
  induction obs with
  | nil => intro s; simp [transitionsToUnauth]
  | cons t rest ih =>
      intro s
      simp only [List.foldl_cons, transitionsToUnauth]
      by_cases h : s.prevDeps = some (depsOf t)
      · rw [show redirectEffectStep s t = s by simp [redirectEffectStep, h]]
        rw [ih s, h]
        simp
      · rw [show redirectEffectStep s t
              = { prevDeps := some (depsOf t)
                  pushes := if shouldRedirect t then s.pushes ++ ["/login"] else s.pushes }
            by simp [redirectEffectStep, h]]
        rw [ih, if_neg h]
        by_cases hr : shouldRedirect t
        · rw [if_pos hr, if_pos hr, Nat.add_comm 1, List.replicate_succ]
          simp
        · rw [if_neg hr, if_neg hr]
          simp

/-- A step whose tuple does not satisfy the redirect guard leaves the
pushed list unchanged, whether or not the effect re-runs. -/
theorem redirectEffectStep_pushes_of_not_redirect (s : EffectState) (t : SessionTuple)
    (h : shouldRedirect t = false) :
    (redirectEffectStep s t).pushes = s.pushes := by
  unfold redirectEffectStep
  by_cases hd : s.prevDeps = some (depsOf t) <;> simp [hd, h]

/-! ### Claims -/

/-- C1: for every logical transition of the observed tuple into
Unauthenticated, the Dashboard (SessionGate) calls redirect exactly once:
the push count over any trace equals the number of transitions into
Unauthenticated; concretely, `Pending, Unauthenticated` gives one push,
a duplicated Unauthenticated observation does not re-issue it, and a later
`Authenticated -> Pending -> Unauthenticated` cycle issues exactly one new
push. -/
theorem dashboard_redirect_once_per_unauth_transition :
    (∀ obs : List SessionTuple,
        (runDashboardEffects obs).pushes.length = transitionsToUnauth none obs) ∧
    (runDashboardEffects [pendingT, unauthT]).pushes.length = 1 ∧
    (runDashboardEffects [pendingT, unauthT, unauthT]).pushes.length = 1 ∧
    (runDashboardEffects
        [pendingT, unauthT, unauthT, authT demoUser, pendingT, unauthT]).pushes.length = 2 := by
  refine ⟨?_, by decide, by decide, by decide⟩
  intro obs
  unfold runDashboardEffects
  rw [foldl_redirect_pushes]
  simp [initEffectState]

/-- C2: for every non-Pending tuple, the Header's visible link list equals
`baseLinks` followed by `gatedLinks` when Authenticated, and `baseLinks`
alone otherwise, in declaration order; concretely Unauthenticated yields
`[Home]` and Authenticated yields `[Home, Dashboard, Todos]`. -/
theorem header_links_match_spec :
    (∀ t : SessionTuple, t.isPending = false →
        headerRender t = HeaderRender.nav (specVisibleLinks (classify t))) ∧
    headerRender { session := none, isPending := false }
      = HeaderRender.nav [{ target := "/", label := "Home" }] ∧
    headerRender { session := some demoUser, isPending := false }
      = HeaderRender.nav [{ target := "/", label := "Home" },
          { target := "/dashboard", label := "Dashboard" },
          { target := "/todos", label := "Todos" }] := by
  refine ⟨?_, by decide, by decide⟩
  intro t h
  cases t with
  | mk so p =>
      cases so <;>
        simp_all [headerRender, headerLinks, classify, specVisibleLinks, baseLinks, gatedLinks]

/-- Witness for C2 at the concrete Unauthenticated tuple. -/
theorem header_links_match_spec_witness :
    headerRender { session := none, isPending := false }
      = HeaderRender.nav
          (specVisibleLinks (classify { session := none, isPending := false })) :=
  header_links_match_spec.1 { session := none, isPending := false } rfl

/-- C3 counterexample: the claim that the Header (ConditionalNavigation)
never calls the router's push capability is false: on observing the
Unauthenticated tuple it pushes "/login" (the `useEffect` at
src/unnamed/part_000 lines 16-20). -/
theorem header_never_pushes_counterexample :
    (runHeaderEffects [unauthT]).pushes = ["/login"] ∧
    ¬ (∀ obs : List SessionTuple, (runHeaderEffects obs).pushes = []) := by
  refine ⟨by decide, fun h => ?_⟩
  exact absurd (h [unauthT]) (by decide)

/-- C3 amended: the Header's rendered output is a pure function of the
session tuple (it depends only on the classified state), but the Header
does perform a redirect side effect: it calls push("/login") exactly once
per transition into Unauthenticated, identically to the Dashboard. -/
theorem header_pure_render_but_redirects :
    (∀ t1 t2 : SessionTuple, classify t1 = classify t2 → headerRender t1 = headerRender t2) ∧
    (∀ obs : List SessionTuple,
        (runHeaderEffects obs).pushes
          = List.replicate (transitionsToUnauth none obs) "/login") := by
  constructor
  · intro t1 t2 hc
    cases t1 with
    | mk s1 p1 =>
        cases t2 with
        | mk s2 p2 =>
            cases p1 <;> cases p2 <;> cases s1 <;> cases s2 <;>
              simp_all [classify, headerRender, headerLinks]
  · intro obs
    unfold runHeaderEffects
    rw [foldl_redirect_pushes]
    simp [initEffectState]

/-- Witness for the amended C3 at concrete inputs. -/
theorem header_pure_render_but_redirects_witness :
    headerRender pendingT = headerRender { session := some demoUser, isPending := true } ∧
    (runHeaderEffects [unauthT, unauthT]).pushes
      = List.replicate (transitionsToUnauth none [unauthT, unauthT]) "/login" :=
  ⟨header_pure_render_but_redirects.1 pendingT
      { session := some demoUser, isPending := true } (by decide),
   header_pure_render_but_redirects.2 [unauthT, unauthT]⟩

/-- C4 counterexample: with both components mounted and observing
`Pending, Unauthenticated`, the core calls push twice (once per
component), so "at most once per unauthenticated transition" for the core
as a whole is false. -/
theorem combined_redirects_twice_counterexample :
    ¬ ((runDashboardEffects [pendingT, unauthT]).pushes.length
        + (runHeaderEffects [pendingT, unauthT]).pushes.length ≤ 1) := by
  decide

/-- C4 amended: each of the two mounted components calls push exactly once
per transition into Unauthenticated, so the core as a whole calls it
exactly twice per such transition (at most once per component, not at
most once overall). -/
theorem combined_redirects_once_per_component :
    ∀ obs : List SessionTuple,
      (runDashboardEffects obs).pushes.length + (runHeaderEffects obs).pushes.length
        = 2 * transitionsToUnauth none obs := by
  intro obs
  unfold runDashboardEffects runHeaderEffects
  rw [foldl_redirect_pushes]
  simp [initEffectState]
  omega

/-- C5: whenever the session is absent and resolution is complete, the
Dashboard renders nothing and the redirect effect pushes the fixed
"/login" path on a fresh transition; and protected content is never
rendered unless a session is present (fail closed). -/
theorem unauth_fail_closed_redirects_to_login :
    ∀ (t : SessionTuple) (msg : Option String),
      (t.session = none → t.isPending = false →
          dashboardRender t msg = DashboardRender.empty ∧
          shouldRedirect t = true ∧
          (∀ s : EffectState, s.prevDeps ≠ some (depsOf t) →
              (redirectEffectStep s t).pushes = s.pushes ++ ["/login"])) ∧
      (∀ name : String, ∀ m : Option String,
          dashboardRender t msg = DashboardRender.content name m →
            t.session = some { name := name }) := by
  intro t msg
  constructor
  · intro hs hp
    refine ⟨by simp [dashboardRender, dashboardFrame, hs, hp],
            by simp [shouldRedirect, hs, hp], ?_⟩
    intro s hd
    simp [redirectEffectStep, hd, shouldRedirect, hs, hp]
  · intro name m h
    cases t with
    | mk so p =>
        cases p
        · cases so with
          | none => simp [dashboardRender, dashboardFrame] at h
          | some u =>
              cases u with
              | mk un =>
                  simp [dashboardRender, dashboardFrame] at h
                  simp [h.1]
        · simp [dashboardRender, dashboardFrame] at h

/-- Witness for C5 at the concrete Unauthenticated tuple from the initial
effect state. -/
theorem unauth_fail_closed_redirects_to_login_witness :
    dashboardRender unauthT none = DashboardRender.empty ∧
    shouldRedirect unauthT = true ∧
    (redirectEffectStep initEffectState unauthT).pushes
      = initEffectState.pushes ++ ["/login"] := by
  have h := (unauth_fail_closed_redirects_to_login unauthT none).1 rfl rfl
  exact ⟨h.1, h.2.1, h.2.2 initEffectState (by decide)⟩

/-- C6: for every tuple with a present session and isPending false, the
Dashboard renders the protected content with exactly that user's name,
and the redirect effect issues no push. -/
theorem auth_renders_user_content_no_redirect :
    ∀ (u : User) (msg : Option String) (s : EffectState),
      dashboardRender (authT u) msg = DashboardRender.content u.name msg ∧
      shouldRedirect (authT u) = false ∧
      (redirectEffectStep s (authT u)).pushes = s.pushes := by
  intro u msg s
  refine ⟨by simp [dashboardRender, dashboardFrame, authT],
          by simp [shouldRedirect, authT], ?_⟩
  exact redirectEffectStep_pushes_of_not_redirect s (authT u)
    (by simp [shouldRedirect, authT])

/-- C7: for every tuple with isPending true, both components render their
loading placeholder, the redirect effect issues no push, and no link list
(not even base-only) is rendered. -/
theorem pending_loader_no_redirect_no_links :
    ∀ (t : SessionTuple) (msg : Option String) (s : EffectState),
      t.isPending = true →
        dashboardRender t msg = DashboardRender.loader ∧
        headerRender t = HeaderRender.loader ∧
        (redirectEffectStep s t).pushes = s.pushes ∧
        (∀ links : List NavLink, headerRender t ≠ HeaderRender.nav links) := by
  intro t msg s hp
  refine ⟨by simp [dashboardRender, dashboardFrame, hp],
          by simp [headerRender, hp], ?_, ?_⟩
  · exact redirectEffectStep_pushes_of_not_redirect s t
      (by simp [shouldRedirect, hp])
  · intro links
    simp [headerRender, hp]

/-- Witness for C7 at the concrete Pending tuple. -/
theorem pending_loader_no_redirect_no_links_witness :
    dashboardRender pendingT none = DashboardRender.loader ∧
    headerRender pendingT = HeaderRender.loader ∧
    (redirectEffectStep initEffectState pendingT).pushes = initEffectState.pushes :=
  ⟨(pending_loader_no_redirect_no_links pendingT none initEffectState rfl).1,
   (pending_loader_no_redirect_no_links pendingT none initEffectState rfl).2.1,
   (pending_loader_no_redirect_no_links pendingT none initEffectState rfl).2.2.1⟩

/-- C8: the gated link set is never part of the Header's rendered output
while the state is Pending or Unauthenticated; it appears (in full, after
the base set) exactly when the state is Authenticated. -/
theorem gated_links_only_when_authenticated :
    ∀ t : SessionTuple,
      (∀ links : List NavLink, headerRender t = HeaderRender.nav links →
          ∀ l : NavLink, l ∈ gatedLinks → l ∈ links →
            ∃ u : User, t.session = some u ∧ t.isPending = false) ∧
      (∀ u : User, t.session = some u → t.isPending = false →
          headerRender t = HeaderRender.nav (baseLinks ++ gatedLinks)) := by
  intro t
  constructor
  · intro links hr l hg hl
    cases t with
    | mk so p =>
        cases p
        · cases so with
          | none =>
              exfalso
              have hlinks : HeaderRender.nav (headerLinks none) = HeaderRender.nav links := by
                simpa [headerRender] using hr
              have hlinks2 : links = headerLinks none := by
                cases hlinks
                rfl
              subst hlinks2
              simp only [gatedLinks, List.mem_cons, List.mem_singleton,
                List.not_mem_nil, or_false] at hg
              rcases hg with h1 | h1
              · subst h1
                exact absurd hl (by decide)
              · subst h1
                exact absurd hl (by decide)
          | some u => exact ⟨u, rfl, rfl⟩
        · exfalso
          simp [headerRender] at hr
  · intro u hs hp
    simp [headerRender, hp, hs, headerLinks, baseLinks, gatedLinks]

/-- Witness for C8: at the concrete Authenticated tuple the gated set is
rendered after the base set. -/
theorem gated_links_only_when_authenticated_witness :
    headerRender (authT demoUser) = HeaderRender.nav (baseLinks ++ gatedLinks) :=
  (gated_links_only_when_authenticated (authT demoUser)).2 demoUser rfl rfl

/-- C9: the Dashboard issues the privateData remote query on every render,
before and independently of the session gate — also while Pending or
Unauthenticated. -/
theorem private_query_issued_every_render :
    ∀ (t : SessionTuple) (msg : Option String),
      (dashboardFrame t msg).queryIssued = true := by
  intro t msg
  cases t with
  | mk so p =>
      cases p <;> cases so <;> rfl

/-- C10: whenever isPending is true, both components render the loading
placeholder and issue no push regardless of the session value — in
particular a non-null session with isPending true is treated as Pending,
not Authenticated. -/
theorem pending_with_session_still_loader :
    ∀ (so : Option User) (msg : Option String) (s : EffectState),
      dashboardRender { session := so, isPending := true } msg = DashboardRender.loader ∧
      headerRender { session := so, isPending := true } = HeaderRender.loader ∧
      shouldRedirect { session := so, isPending := true } = false ∧
      (redirectEffectStep s { session := so, isPending := true }).pushes = s.pushes := by
  intro so msg s
  refine ⟨rfl, rfl, by simp [shouldRedirect], ?_⟩
  exact redirectEffectStep_pushes_of_not_redirect s _ (by simp [shouldRedirect])
